import Mathlib

/-!
Verification of the background backup orchestrator of borgmatic-windows-tray
(src/backups.py, src/queue_requests.py, src/configuration.py).

Modelling conventions:
* Machine state that the Python thread mutates (the task-status dict, the
  last-sent icon) is passed explicitly; every handler returns the new state
  together with a list of observable effects (log/status publications,
  process spawns, queue operations, file writes, sleeps).
* The task-status dict is an insertion-ordered association list, mirroring
  Python dict semantics (updates keep the entry position, new keys append).
  Reads of missing keys yield NOT_STARTED, mirroring the defaultdict.
* External processes are nondeterministic collaborators; a run is modelled
  by the list of (decoded, stripped) stdout lines it produced and its exit
  code.  A single concurrent write to the task's status slot while the
  supervisor is between its initial RUNNING write and its terminal write
  (i.e. a cancellation racing the worker) is modelled by an explicit
  parameter; the in-loop cancellation check observes that value.
* Wall-clock quantities (elapsed seconds, the formatted clock time) are
  parameters; the elapsed-time string is computed exactly as the source
  formats it.  The once-per-second progress publication, whose occurrences
  depend on real time only, is not modelled.
* Unexpected exceptions (any exception other than the handled
  CalledProcessError) are modelled by an oracle saying at which step of a
  handler one is raised; the handler then takes its except-branch.
-/

namespace BorgmaticTray

/-- TaskStatus mirrors the enum at the bottom of src/backups.py. -/
inductive TaskStatus where
  | notStarted
  | running
  | finished
  | failed
  | cancelRequested
  deriving DecidableEq

/-- StatusMap models the task_status defaultdict: an insertion-ordered
association list from task title to status. -/
abbrev StatusMap := List (String × TaskStatus)

/-- getStatus models reading task_status, with the defaultdict default
NOT_STARTED for keys never written. -/
def getStatus (m : StatusMap) (k : String) : TaskStatus :=
  (m.lookup k).getD TaskStatus.notStarted

/-- setStatus models a dict write: an existing key keeps its position and
gets the new value, a new key is appended at the end. -/
def setStatus (m : StatusMap) (k : String) (v : TaskStatus) : StatusMap :=
  match m with
  | [] => [(k, v)]
  | (k', v') :: rest =>
    if k' = k then (k', v) :: rest else (k', v') :: setStatus rest k v

/-- task_is_running mirrors BackgroundBackupThread.task_is_running: true
exactly for RUNNING and CANCEL_REQUESTED. -/
def task_is_running (m : StatusMap) (task_title : String) : Bool :=
  match getStatus m task_title with
  | TaskStatus.running => true
  | TaskStatus.cancelRequested => true
  | _ => false

/-- BackupConfiguration mirrors configuration.BackupConfiguration; the
fields the orchestrator reads, with file-system paths as plain strings
(the Windows-to-WSL path conversion of to_wsl_path is applied by the
caller and does not affect any verified property). -/
structure BackupConfiguration where
  name : String
  wsl_distro : String
  config_file : String
  backup_schedule_hours : Nat
  log_file : String
  report_files : String
  report_paths : String
  report_excluded : String
  report_errors : String
  diff_file : String
  post_backup_script : String
  post_backup_wsl_distro : String
  post_backup_schedule_hours : Nat
  backup_line_count_file : String
  deriving DecidableEq

/-- QueueItem models what can travel on the inbound queue: the request
classes of src/queue_requests.py, plus a variant for an object of a type
the dispatch match does not recognise (which makes it raise TypeError). -/
inductive QueueItem where
  | startBackup (config : BackupConfiguration) (is_scheduled : Bool)
  | startPostBackup (config : BackupConfiguration) (is_scheduled : Bool)
  | cancelBackupReq (config : BackupConfiguration)
  | cancelPostBackupReq (config : BackupConfiguration)
  | enableScheduledBackupsReq (config : BackupConfiguration)
  | disableScheduledBackupsReq (config : BackupConfiguration)
  | analyzeLogsReq (config : BackupConfiguration) (editor : String)
  | diffLastBackupsReq (config : BackupConfiguration) (editor : String)
  | updateSystrayReq (hover_text : Option String) (icon : Option String)
  | exitReq
  | unknownItem
  deriving DecidableEq

/-- Effect is the trace alphabet of observable actions a handler performs. -/
inductive Effect where
  | status (line : String)
  | systray (hover_text : Option String) (icon : Option String)
  | rotate (log_file : String)
  | execProcess (title : String) (command : String)
  | terminate (title : String)
  | save_line_count (file : String) (count : Nat)
  | sleepSeconds (n : Nat)
  | enqueueInput (item : QueueItem)
  | enqueueOutput (item : QueueItem)
  | startWorker (item : QueueItem)
  | scheduleClear (tag : String)
  | scheduleJob (tag : String) (hours : Nat) (minuteMark : String) (item : QueueItem)
  | openReport (file : String) (header : String) (editor : String)
  deriving DecidableEq

/-- ProcBehavior describes one run of an external process: its decoded,
stripped output lines and its exit code. -/
structure ProcBehavior where
  lines : List String
  returncode : Int
  deriving DecidableEq

/-- pad2 models the Python format f-string field {seconds:02}. -/
def pad2 (n : Nat) : String :=
  if n < 10 then "0" ++ Nat.repr n else Nat.repr n

/-- time_string models the minutes:seconds formatting computed via divmod
in run_process_and_update_systray. -/
def time_string (elapsed : Nat) : String :=
  Nat.repr (elapsed / 60) ++ ":" ++ pad2 (elapsed % 60) ++ "s"

/-- strContains models the Python substring test (pat in s). -/
def strContains (s pat : String) : Bool :=
  decide (List.IsInfix pat.data s.data)

/-- isStatsLine models the test for the three borg --stats markers. -/
def isStatsLine (line : String) : Bool :=
  strContains line "Number of files: " || strContains line "Original size: " ||
    strContains line "Deduplicated size: "

/-- statsOutput models the accumulation of stats_output over the output
lines: a marker line whose value is not 0 is appended after a newline. -/
def statsOutput (lines : List String) : String :=
  lines.foldl
    (fun acc line =>
      if isStatsLine line && !(line.endsWith " 0" || line.endsWith " 0 B") then
        acc ++ "\n" ++ line
      else acc)
    ""

/-- SupResult is the outcome of one Process Supervisor invocation: the new
status table, the effect trace, and either the handled process error
(CalledProcessError) or the observed line count. -/
structure SupResult where
  statuses : StatusMap
  effects : List Effect
  result : Except Unit Nat

/-- run_process_and_update_systray models the Process Supervisor.  The
concurrentWrite parameter is the value a racing writer (cancel_backup /
queue_exit) stored into this task's status slot after the initial RUNNING
write, if any; the in-loop cancellation check observes it.  The terminal
status write happens after any such racing write, so the returned table is
the input table with this task set to its terminal status. -/
def run_process_and_update_systray (m : StatusMap) (title : String) (command : String)
    (line_count_target : Nat) (proc : ProcBehavior) (concurrentWrite : Option TaskStatus)
    (elapsed : Nat) (nowStr : String) : SupResult :=
  let _ := line_count_target
  let startEffects : List Effect := [Effect.status ("Running " ++ title ++ ": started")]
  let effStatus := concurrentWrite.getD TaskStatus.running
  let termEffects : List Effect :=
    if effStatus = TaskStatus.cancelRequested ∧ proc.lines ≠ [] then
      [Effect.terminate title]
    else []
  let execEffects : List Effect := [Effect.execProcess title command]
  if proc.returncode ≠ 0 then
    { statuses := setStatus m title TaskStatus.failed
      effects := startEffects ++ execEffects ++ termEffects ++
        [Effect.status ("Failed " ++ title ++ " at " ++ nowStr ++ "!\n" ++
          "Return code: " ++ toString proc.returncode ++ " (in " ++ time_string elapsed ++ ")")]
      result := Except.error () }
  else
    let stats := statsOutput proc.lines
    let hover := "Finished " ++ title ++ " at " ++ nowStr ++ " in " ++ time_string elapsed ++
      ":" ++ (if stats ≠ "" then "\n" ++ stats else "")
    { statuses := setStatus m title TaskStatus.finished
      effects := startEffects ++ execEffects ++ termEffects ++ [Effect.status hover]
      result := Except.ok proc.lines.length }

/-- BackupStep names the places inside run_backup where an unexpected
exception (anything but the handled CalledProcessError) can arise. -/
inductive BackupStep where
  | rotateStep
  | loadStep
  | superviseStep
  | saveStep
  deriving DecidableEq

/-- HandlerResult is a handler's new status table plus its effect trace. -/
structure HandlerResult where
  statuses : StatusMap
  effects : List Effect

/-- backup_command is the command line run_backup hands to the supervisor. -/
def backup_command (config : BackupConfiguration) : String :=
  "wsl.exe -d " ++ config.wsl_distro ++ " -- PATH=~/.local/bin:$PATH borgmatic " ++
    "--config " ++ config.config_file ++ " --verbosity 1 " ++
    "--log-file " ++ config.log_file ++ " --log-file-verbosity 2"

/-- run_backup models BackgroundBackupThread.run_backup.  stored is the
integer loaded from the persisted line-count file; unexpected is the
unexpected-exception oracle (none = no unexpected exception). -/
def run_backup (m : StatusMap) (config : BackupConfiguration) (proc : ProcBehavior)
    (concurrentWrite : Option TaskStatus) (stored : Nat) (unexpected : Option BackupStep)
    (elapsed : Nat) (nowStr : String) : HandlerResult :=
  let task_title := config.name ++ " backup"
  let errEffect : Effect := Effect.status ("Error running backup for " ++ config.name)
  if task_is_running m task_title then
    { statuses := m
      effects := [Effect.status (task_title ++ " is already running, skipping")] }
  else if unexpected = some BackupStep.rotateStep then
    { statuses := setStatus m task_title TaskStatus.failed, effects := [errEffect] }
  else if unexpected = some BackupStep.loadStep then
    { statuses := setStatus m task_title TaskStatus.failed
      effects := [Effect.rotate config.log_file, errEffect] }
  else if unexpected = some BackupStep.superviseStep then
    { statuses := setStatus m task_title TaskStatus.failed
      effects := [Effect.rotate config.log_file, errEffect] }
  else
    let sup := run_process_and_update_systray m task_title (backup_command config) stored
      proc concurrentWrite elapsed nowStr
    match sup.result with
    | Except.error _ =>
      { statuses := sup.statuses, effects := Effect.rotate config.log_file :: sup.effects }
    | Except.ok line_count =>
      if unexpected = some BackupStep.saveStep then
        { statuses := setStatus sup.statuses task_title TaskStatus.failed
          effects := Effect.rotate config.log_file :: sup.effects ++ [errEffect] }
      else
        { statuses := sup.statuses
          effects := Effect.rotate config.log_file :: sup.effects ++
            [Effect.save_line_count config.backup_line_count_file line_count] }

/-- post_backup_command is the command line run_post_backup hands to the
supervisor. -/
def post_backup_command (config : BackupConfiguration) : String :=
  "wsl.exe -d " ++ config.post_backup_wsl_distro ++ " -- PATH=~/.local/bin:$PATH " ++
    config.post_backup_script

/-- run_post_backup models BackgroundBackupThread.run_post_backup.  The
unexpected flag says whether an unexpected exception is raised when the
handler reaches its supervisor call. -/
def run_post_backup (m : StatusMap) (config : BackupConfiguration) (is_scheduled : Bool)
    (proc : ProcBehavior) (concurrentWrite : Option TaskStatus) (unexpected : Bool)
    (elapsed : Nat) (nowStr : String) : HandlerResult :=
  let task_title := config.name ++ " post-backup"
  let pre : List Effect := if is_scheduled then [Effect.sleepSeconds 10] else []
  if task_is_running m task_title then
    { statuses := m
      effects := pre ++ [Effect.status (task_title ++ " is already running, skipping")] }
  else
    let backup_task_title := config.name ++ " backup"
    if task_is_running m backup_task_title then
      { statuses := m
        effects := pre ++
          [Effect.status (backup_task_title ++ " is still running, delaying " ++ task_title),
            Effect.sleepSeconds 30,
            Effect.enqueueInput (QueueItem.startPostBackup config is_scheduled)] }
    else if unexpected then
      { statuses := setStatus m task_title TaskStatus.failed
        effects := pre ++ [Effect.status ("Error running post-backup tasks for " ++ config.name)] }
    else
      let sup := run_process_and_update_systray m task_title (post_backup_command config) 0
        proc concurrentWrite elapsed nowStr
      { statuses := sup.statuses, effects := pre ++ sup.effects }

/-- FS models the directory holding the log files: each path maps to the
contents of the file stored there, or none when absent. -/
abbrev FS := String → Option String

/-- fsExists models Path.exists. -/
def fsExists (fs : FS) (p : String) : Bool :=
  (fs p).isSome

/-- fsUnlink models Path.unlink. -/
def fsUnlink (fs : FS) (p : String) : FS :=
  fun q => if q = p then none else fs q

/-- fsMove models shutil.move of one file: the source's contents end up at
the destination and the source is gone (a missing source is never moved in
rotate_logs because every move is guarded by an existence check). -/
def fsMove (fs : FS) (src dst : String) : FS :=
  match fs src with
  | some c => fun q => if q = src then none else if q = dst then some c else fs q
  | none => fs

/-- gen names the i-th log generation: the base name with suffix .i . -/
def gen (log_file : String) (i : Nat) : String :=
  log_file ++ "." ++ Nat.repr i

/-- rotate_logs mirrors BackgroundBackupThread.rotate_logs: delete
generation 9 if present, shift generations 8 down to 1 up by one, then
move the un-suffixed log to generation 1. -/
def rotate_logs (fs : FS) (log_file : String) : FS :=
  let fs1 := if fsExists fs (gen log_file 9) then fsUnlink fs (gen log_file 9) else fs
  let fs2 := [8, 7, 6, 5, 4, 3, 2, 1].foldl
    (fun f i => if fsExists f (gen log_file i) then fsMove f (gen log_file i) (gen log_file (i + 1)) else f)
    fs1
  if fsExists fs2 log_file then fsMove fs2 log_file (gen log_file 1) else fs2

/-- autoIcon models the automatic icon selection in update_systray (the
icon is None-valued when the first running task matches none of the four
substrings, exactly as in the source). -/
def autoIcon (m : StatusMap) : Option String :=
  if m.any (fun p => decide (p.2 = TaskStatus.failed)) then
    some "./icons/error.ico"
  else if m.any (fun p => decide (p.2 = TaskStatus.running)) then
    match m.find? (fun p => decide (p.2 = TaskStatus.running)) with
    | some p =>
      if strContains p.1 "post-backup" then some "./icons/post-backup.ico"
      else if strContains p.1 "backup" then some "./icons/backup.ico"
      else if strContains p.1 "analysis" then some "./icons/analyze.ico"
      else if strContains p.1 "diff" then some "./icons/logs.ico"
      else none
    | none => none
  else if m.any (fun p => decide (p.2 = TaskStatus.finished)) then
    some "./icons/success.ico"
  else
    some "./icons/drive.ico"

/-- SystrayUpdate is the outcome of one update_systray call: the new
last_sent_icon field and the UpdateSystray message put on the outbound
queue. -/
structure SystrayUpdate where
  last_sent_icon : Option String
  sent_hover : Option String
  sent_icon : Option String
  deriving DecidableEq

/-- update_systray mirrors BackgroundBackupThread.update_systray: choose
the icon (explicit argument, else automatic), suppress it if it equals the
last icon sent, otherwise remember it, and publish the pair. -/
def update_systray (m : StatusMap) (last_sent : Option String)
    (hover_text : Option String) (iconArg : Option String) : SystrayUpdate :=
  let icon := match iconArg with
    | some i => some i
    | none => autoIcon m
  if icon = last_sent then
    { last_sent_icon := last_sent, sent_hover := hover_text, sent_icon := none }
  else
    { last_sent_icon := icon, sent_hover := hover_text, sent_icon := icon }

/-- cancel_backup mirrors BackgroundBackupThread.cancel_backup. -/
def cancel_backup (m : StatusMap) (config : BackupConfiguration) : HandlerResult :=
  let task_title := config.name ++ " backup"
  if task_is_running m task_title then
    { statuses := setStatus m task_title TaskStatus.cancelRequested
      effects := [Effect.status ("Cancelled " ++ config.name ++ " backup")] }
  else
    { statuses := m, effects := [] }

/-- cancel_post_backup mirrors BackgroundBackupThread.cancel_post_backup. -/
def cancel_post_backup (m : StatusMap) (config : BackupConfiguration) : HandlerResult :=
  let task_title := config.name ++ " post-backup"
  if task_is_running m task_title then
    { statuses := setStatus m task_title TaskStatus.cancelRequested
      effects := [Effect.status ("Cancelled " ++ config.name ++ " post-backup tasks")] }
  else
    { statuses := m, effects := [] }

/-- enable_scheduled_backups mirrors the scheduler registration handler. -/
def enable_scheduled_backups (m : StatusMap) (config : BackupConfiguration) : HandlerResult :=
  { statuses := m
    effects := [Effect.scheduleClear config.name,
      Effect.scheduleJob config.name config.backup_schedule_hours ":00"
        (QueueItem.startBackup config true),
      Effect.scheduleJob config.name config.post_backup_schedule_hours ":01"
        (QueueItem.startPostBackup config true),
      Effect.status ("Enabled scheduled backups for " ++ config.name)] }

/-- disable_scheduled_backups mirrors the scheduler clearing handler. -/
def disable_scheduled_backups (m : StatusMap) (config : BackupConfiguration) : HandlerResult :=
  { statuses := m
    effects := [Effect.scheduleClear config.name,
      Effect.status ("Disabled scheduled backups for " ++ config.name)] }

/-- queue_exit mirrors BackgroundBackupThread.queue_exit: propagate Exit to
both queues and set every known task to CANCEL_REQUESTED. -/
def queue_exit (m : StatusMap) : HandlerResult :=
  { statuses := m.map (fun p => (p.1, TaskStatus.cancelRequested))
    effects := [Effect.enqueueInput QueueItem.exitReq, Effect.enqueueOutput QueueItem.exitReq] }

/-- LoopControl says whether the dispatch loop continues or terminates
after one iteration. -/
inductive LoopControl where
  | next
  | halt
  deriving DecidableEq

/-- loopErrorEffects is what the loop-level except branch does: log the
error (self.output) and publish the error icon. -/
def loopErrorEffects : List Effect :=
  [Effect.status "Error in background backup thread",
    Effect.systray none (some "./icons/error.ico")]

/-- dispatch_once models one iteration of the dispatch loop in
BackgroundBackupThread.run handling the given queue item.  raisesDuring
is the oracle saying the selected handler raises an exception before
taking effect; a queue item the match does not recognise (including
UpdateSystray, for which the match has no case) raises TypeError.  Both
are caught by the loop-level except branch, which logs, publishes the
error icon and continues.  Long-running handlers are spawned on worker
threads, recorded as a startWorker effect. -/
def dispatch_once (m : StatusMap) (item : QueueItem) (raisesDuring : Bool) :
    StatusMap × List Effect × LoopControl :=
  if raisesDuring then
    (m, loopErrorEffects, LoopControl.next)
  else
    match item with
    | QueueItem.startBackup _ _ => (m, [Effect.startWorker item], LoopControl.next)
    | QueueItem.startPostBackup _ _ => (m, [Effect.startWorker item], LoopControl.next)
    | QueueItem.cancelBackupReq config =>
      let r := cancel_backup m config
      (r.statuses, r.effects, LoopControl.next)
    | QueueItem.cancelPostBackupReq config =>
      let r := cancel_post_backup m config
      (r.statuses, r.effects, LoopControl.next)
    | QueueItem.enableScheduledBackupsReq config =>
      let r := enable_scheduled_backups m config
      (r.statuses, r.effects, LoopControl.next)
    | QueueItem.disableScheduledBackupsReq config =>
      let r := disable_scheduled_backups m config
      (r.statuses, r.effects, LoopControl.next)
    | QueueItem.analyzeLogsReq _ _ => (m, [Effect.startWorker item], LoopControl.next)
    | QueueItem.diffLastBackupsReq _ _ => (m, [Effect.startWorker item], LoopControl.next)
    | QueueItem.updateSystrayReq _ _ => (m, loopErrorEffects, LoopControl.next)
    | QueueItem.exitReq =>
      let r := queue_exit m
      (r.statuses, r.effects, LoopControl.halt)
    | QueueItem.unknownItem => (m, loopErrorEffects, LoopControl.next)

/-- LogLine is one line of a rotated borgmatic log, with the whitespace
split already performed (parts) and the timestamp of its first two fields
already parsed to seconds (ts); raw is the original line text.  Parsing of
the bracketed date-time string via strptime is abstracted into the numeric
ts field; all arithmetic on it mirrors total_seconds() exactly, over the
rationals. -/
structure LogLine where
  ts : Rat
  parts : List String
  raw : String

/-- AnalyzerAcc is the accumulating analyzer state shared across log
generations: the two defaultdict(float) tables (insertion-ordered
association lists, as Python dicts are) and the two report line lists. -/
structure AnalyzerAcc where
  file_backup_times : List (String × Rat)
  path_backup_times : List (String × Rat)
  error_lines : List String
  excluded_files : List String

/-- pySplit models the Python str.split(sep) for a one-character
separator, working over the character list (same semantics: an empty
string yields one empty field, adjacent separators yield empty fields). -/
def pySplit (sep : Char) (s : String) : List String :=
  (s.data.splitOn sep).map String.mk

/-- pyJoin models the Python sep.join(parts), working over character
lists. -/
def pyJoin (sep : String) (parts : List String) : String :=
  String.mk (List.intercalate sep.data (parts.map String.data))

/-- addTime models defaultdict[k] += v: an existing key keeps its position
and is increased, a new key is appended holding v (0 + v). -/
def addTime (m : List (String × Rat)) (k : String) (v : Rat) : List (String × Rat) :=
  if (m.lookup k).isSome then
    m.map (fun p => if p.1 = k then (p.1, p.2 + v) else p)
  else m ++ [(k, v)]

/-- addPathTimes accumulates a delta into every prefix of the path's
component list, as the inner for-loop over path_components does. -/
def addPathTimes (m : List (String × Rat)) (path : String) (backup_time : Rat) :
    List (String × Rat) :=
  (List.range' 1 (pySplit '/' path).length).foldl
    (fun acc j => addTime acc (pyJoin "/" ((pySplit '/' path).take j)) backup_time)
    m

/-- GenScanState is the per-generation scan state: the shared accumulator
plus previous_timestamp and previous_line, which reset per log file. -/
structure GenScanState where
  acc : AnalyzerAcc
  previous_timestamp : Option Rat
  previous_line : String

/-- analyze_line models one iteration of the inner line loop of
analyze_logs: lines with fewer than five fields are skipped entirely;
otherwise a single-character item flag whose delta from the previous
timestamp is below 600 seconds is accumulated per file and per path
prefix, and (on the most recent generation only) excluded/error lines are
collected. -/
def analyze_line (isFirstGen : Bool) (st : GenScanState) (line : LogLine) : GenScanState :=
  if line.parts.length < 5 then st
  else
    let timestamp := line.ts
    let prev := st.previous_timestamp.getD timestamp
    let file_flag := line.parts.getD 3 ""
    let path := pyJoin " " (line.parts.drop 4)
    let acc1 :=
      if file_flag.length = 1 then
        let backup_time := timestamp - prev
        if backup_time < 600 then
          { st.acc with
            file_backup_times := addTime st.acc.file_backup_times path backup_time
            path_backup_times := addPathTimes st.acc.path_backup_times path backup_time }
        else st.acc
      else st.acc
    let acc2 :=
      if isFirstGen then
        let acc2a :=
          if file_flag = "-" then
            { acc1 with excluded_files := acc1.excluded_files ++ [line.raw] }
          else acc1
        let acc2b :=
          if file_flag = "E" then
            { acc2a with error_lines := acc2a.error_lines ++ [st.previous_line] }
          else acc2a
        if strContains line.raw "file changed while we read it!" then
          { acc2b with error_lines := acc2b.error_lines ++ [line.raw] }
        else acc2b
      else acc1
    { acc := acc2, previous_timestamp := some timestamp, previous_line := line.raw }

/-- analyze_generation scans one log generation, resetting the previous
timestamp and previous line as the source does per opened file. -/
def analyze_generation (isFirstGen : Bool) (acc : AnalyzerAcc) (lines : List LogLine) :
    AnalyzerAcc :=
  (lines.foldl (analyze_line isFirstGen)
    { acc := acc, previous_timestamp := none, previous_line := "" }).acc

/-- ratDesc is the descending order used by the sort, mirroring
sorted(key = value, reverse = True); the Python sort is stable, so any
stable sorting algorithm models it, and insertion sort is used below. -/
def ratDesc (a b : String × Rat) : Prop :=
  b.2 ≤ a.2

instance : DecidableRel ratDesc :=
  fun a b => inferInstanceAs (Decidable (b.2 ≤ a.2))

instance : IsTotal (String × Rat) ratDesc :=
  ⟨fun a b => le_total b.2 a.2⟩

instance : IsTrans (String × Rat) ratDesc :=
  ⟨fun _ _ _ h1 h2 => le_trans h2 h1⟩

/-- AnalyzeOutcome carries what the four reports are generated from: the
two sorted average-time tables, the excluded and error line lists, and the
generation count used as divisor. -/
structure AnalyzeOutcome where
  sorted_files : List (String × Rat)
  sorted_paths : List (String × Rat)
  excluded_files : List String
  error_lines : List String
  backup_count : Nat

/-- analyzer_totals models the scanning loop of the Log Analyzer over the
generations found on disk (index 0 = the current log; the ascending scan
of the source stops at the first missing file, so the input list is
exactly the scanned generations in order). -/
def analyzer_totals (gens : List (List LogLine)) : AnalyzerAcc :=
  gens.enum.foldl (fun a p => analyze_generation (p.1 = 0) a p.2)
    { file_backup_times := [], path_backup_times := [], error_lines := [], excluded_files := [] }

/-- analyze_logs models the pure core of the Log Analyzer: accumulate the
totals, sort them descending, then divide every total by the number of
generations scanned (minimum 1), exactly as the report formatting does. -/
def analyze_logs (gens : List (List LogLine)) : AnalyzeOutcome :=
  let acc := analyzer_totals gens
  let backup_count := if gens.length = 0 then 1 else gens.length
  { sorted_files := (acc.file_backup_times.insertionSort ratDesc).map
      (fun p => (p.1, p.2 / (backup_count : Rat)))
    sorted_paths := (acc.path_backup_times.insertionSort ratDesc).map
      (fun p => (p.1, p.2 / (backup_count : Rat)))
    excluded_files := acc.excluded_files
    error_lines := acc.error_lines
    backup_count := backup_count }

/-- cfgA is a concrete configuration used by the witness statements. -/
def cfgA : BackupConfiguration :=
  { name := "A", wsl_distro := "d", config_file := "cf", backup_schedule_hours := 2,
    log_file := "lf", report_files := "r1", report_paths := "r2", report_excluded := "r3",
    report_errors := "r4", diff_file := "df", post_backup_script := "ps",
    post_backup_wsl_distro := "pd", post_backup_schedule_hours := 6,
    backup_line_count_file := "lc" }

theorem getStatus_setStatus_self (m : StatusMap) (k : String) (v : TaskStatus) :
    getStatus (setStatus m k v) k = v := by
  induction m with
  | nil => simp [setStatus, getStatus, List.lookup]
  | cons p rest ih =>
    obtain ⟨k', v'⟩ := p
    by_cases h : k' = k
    · subst h
      simp [setStatus, getStatus, List.lookup]
    · have hb : (k == k') = false := beq_eq_false_iff_ne.mpr (Ne.symm h)
      simp only [setStatus, if_neg h, getStatus, List.lookup, hb]
      exact ih

theorem getStatus_setStatus_ne (m : StatusMap) {k j : String} (v : TaskStatus)
    (h : k ≠ j) : getStatus (setStatus m k v) j = getStatus m j := by
  induction m with
  | nil =>
    have hb : (j == k) = false := beq_eq_false_iff_ne.mpr (Ne.symm h)
    simp [setStatus, getStatus, List.lookup, hb]
  | cons p rest ih =>
    obtain ⟨k', v'⟩ := p
    by_cases hk : k' = k
    · subst hk
      have hb : (j == k') = false := beq_eq_false_iff_ne.mpr (Ne.symm h)
      simp [setStatus, getStatus, List.lookup, hb]
    · simp only [setStatus, if_neg hk]
      by_cases hj : j = k'
      · subst hj
        simp [getStatus, List.lookup]
      · have hb : (j == k') = false := beq_eq_false_iff_ne.mpr hj
        simp only [getStatus, List.lookup, hb]
        exact ih

/-- C1: whenever a StartFollowUp request is handled while the primary
(backup) task of the same configuration has status RUNNING or
CANCEL_REQUESTED, the handler does not execute the follow-up external
command in that handling (every path either skips, or delays and
re-enqueues, without an execProcess effect). -/
theorem C1_followup_never_runs_while_primary_active
    (m : StatusMap) (config : BackupConfiguration) (is_scheduled : Bool)
    (proc : ProcBehavior) (cw : Option TaskStatus) (ub : Bool)
    (elapsed : Nat) (nowStr : String)
    (h : task_is_running m (config.name ++ " backup") = true) :
    ∀ t c, Effect.execProcess t c ∉
      (run_post_backup m config is_scheduled proc cw ub elapsed nowStr).effects := by
  intro t c
  unfold run_post_backup
  by_cases hp : task_is_running m (config.name ++ " post-backup")
  · cases is_scheduled <;> simp [hp]
  · cases is_scheduled <;> simp [hp, h]

/-- C1 witness: with the primary active the handler performs no process
execution at a concrete state. -/
theorem C1_witness :
    task_is_running [("A backup", TaskStatus.running)] (cfgA.name ++ " backup") = true ∧
    ∀ t c, Effect.execProcess t c ∉
      (run_post_backup [("A backup", TaskStatus.running)] cfgA
        false { lines := [], returncode := 0 } none false 0 "12:00 PM").effects :=
  ⟨by decide,
    C1_followup_never_runs_while_primary_active _ _ false _ none false 0 "12:00 PM" (by decide)⟩

/-- C2: handling a start request for a task that is active (RUNNING or
CANCEL_REQUESTED) spawns no external process, leaves the Status Table
unchanged, and publishes a skipping status message; this status check
before any spawn is what enforces one live process per task identity. -/
theorem C2_start_while_active_is_noop :
    (∀ (m : StatusMap) (config : BackupConfiguration) (proc : ProcBehavior)
        (cw : Option TaskStatus) (stored : Nat) (unexpected : Option BackupStep)
        (elapsed : Nat) (nowStr : String),
      task_is_running m (config.name ++ " backup") = true →
      (run_backup m config proc cw stored unexpected elapsed nowStr).statuses = m ∧
      (∀ t c, Effect.execProcess t c ∉
        (run_backup m config proc cw stored unexpected elapsed nowStr).effects) ∧
      Effect.status ((config.name ++ " backup") ++ " is already running, skipping") ∈
        (run_backup m config proc cw stored unexpected elapsed nowStr).effects) ∧
    (∀ (m : StatusMap) (config : BackupConfiguration) (is_scheduled : Bool)
        (proc : ProcBehavior) (cw : Option TaskStatus) (ub : Bool)
        (elapsed : Nat) (nowStr : String),
      task_is_running m (config.name ++ " post-backup") = true →
      (run_post_backup m config is_scheduled proc cw ub elapsed nowStr).statuses = m ∧
      (∀ t c, Effect.execProcess t c ∉
        (run_post_backup m config is_scheduled proc cw ub elapsed nowStr).effects) ∧
      Effect.status ((config.name ++ " post-backup") ++ " is already running, skipping") ∈
        (run_post_backup m config is_scheduled proc cw ub elapsed nowStr).effects) := by
  constructor
  · intro m config proc cw stored unexpected elapsed nowStr h
    unfold run_backup
    simp [h]
  · intro m config is_scheduled proc cw ub elapsed nowStr h
    unfold run_post_backup
    cases is_scheduled <;> simp [h]

/-- C2 witness: starting an active backup at a concrete state changes
nothing and only publishes the skipping message. -/
theorem C2_witness :
    task_is_running [("A backup", TaskStatus.cancelRequested)] (cfgA.name ++ " backup") = true ∧
    (run_backup [("A backup", TaskStatus.cancelRequested)] cfgA
      { lines := ["x"], returncode := 0 } none 0 none 5 "12:00 PM").statuses =
      [("A backup", TaskStatus.cancelRequested)] :=
  ⟨by decide,
    (C2_start_while_active_is_noop.1 _ _ { lines := ["x"], returncode := 0 } none 0 none 5
      "12:00 PM" (by decide)).1⟩

/-- C7: a StartFollowUp request handled while the follow-up task is
inactive but the primary task is active publishes the delaying status,
sleeps the fixed 30 second delay, re-enqueues the very same request, and
neither executes the follow-up command nor changes any task status. -/
theorem C7_followup_delayed_and_requeued
    (m : StatusMap) (config : BackupConfiguration) (is_scheduled : Bool)
    (proc : ProcBehavior) (cw : Option TaskStatus) (ub : Bool)
    (elapsed : Nat) (nowStr : String)
    (hp : task_is_running m (config.name ++ " post-backup") = false)
    (hb : task_is_running m (config.name ++ " backup") = true) :
    (run_post_backup m config is_scheduled proc cw ub elapsed nowStr).statuses = m ∧
    (run_post_backup m config is_scheduled proc cw ub elapsed nowStr).effects =
      (if is_scheduled then [Effect.sleepSeconds 10] else []) ++
        [Effect.status ((config.name ++ " backup") ++ " is still running, delaying " ++
            (config.name ++ " post-backup")),
          Effect.sleepSeconds 30,
          Effect.enqueueInput (QueueItem.startPostBackup config is_scheduled)] := by
  unfold run_post_backup
  cases is_scheduled <;> simp [hp, hb]

/-- C7 witness: the delaying path at a concrete state. -/
theorem C7_witness :
    (run_post_backup [("A backup", TaskStatus.running)] cfgA
      true { lines := [], returncode := 0 } none false 0 "12:00 PM").statuses =
      [("A backup", TaskStatus.running)] :=
  (C7_followup_delayed_and_requeued _ _ true _ none false 0 "12:00 PM"
    (by decide) (by decide)).1


theorem str_assoc (a b c : String) : (a ++ b) ++ c = a ++ (b ++ c) := by
  apply String.ext
  simp [String.data_append]

theorem str_append_empty (a : String) : a ++ "" = a := by
  apply String.ext
  simp [String.data_append]

theorem save_not_in_supervisor_effects (m : StatusMap) (title command : String)
    (tgt : Nat) (proc : ProcBehavior) (cw : Option TaskStatus) (elapsed : Nat)
    (nowStr : String) (f : String) (n : Nat) :
    Effect.save_line_count f n ∉
      (run_process_and_update_systray m title command tgt proc cw elapsed nowStr).effects := by
  unfold run_process_and_update_systray
  by_cases h0 : proc.returncode = 0 <;>
    by_cases hc : cw.getD TaskStatus.running = TaskStatus.cancelRequested ∧ proc.lines ≠ [] <;>
      simp [h0, hc]

theorem supervisor_result_ok (m : StatusMap) (title command : String) (tgt : Nat)
    (proc : ProcBehavior) (cw : Option TaskStatus) (elapsed : Nat) (nowStr : String)
    (h0 : proc.returncode = 0) :
    (run_process_and_update_systray m title command tgt proc cw elapsed nowStr).result =
      Except.ok proc.lines.length := by
  simp [run_process_and_update_systray, h0]

theorem supervisor_result_error (m : StatusMap) (title command : String) (tgt : Nat)
    (proc : ProcBehavior) (cw : Option TaskStatus) (elapsed : Nat) (nowStr : String)
    (h0 : proc.returncode ≠ 0) :
    (run_process_and_update_systray m title command tgt proc cw elapsed nowStr).result =
      Except.error () := by
  simp [run_process_and_update_systray, h0]

theorem supervisor_statuses (m : StatusMap) (title command : String) (tgt : Nat)
    (proc : ProcBehavior) (cw : Option TaskStatus) (elapsed : Nat) (nowStr : String) :
    (run_process_and_update_systray m title command tgt proc cw elapsed nowStr).statuses =
      setStatus m title
        (if proc.returncode ≠ 0 then TaskStatus.failed else TaskStatus.finished) := by
  by_cases h : proc.returncode ≠ 0 <;> simp [run_process_and_update_systray, h]

/-- C3: the Process Supervisor classifies each run: a non-zero exit code
yields the handled process-error outcome, a FAILED status and a published
failure message containing the exit code and the elapsed-time string; a
zero exit code yields the FINISHED status, a published success message
containing the elapsed-time string (and the accumulated stats, when any),
and returns the number of output lines observed. -/
theorem C3_supervisor_classifies_outcome (m : StatusMap) (title command : String)
    (tgt : Nat) (proc : ProcBehavior) (cw : Option TaskStatus) (elapsed : Nat)
    (nowStr : String) :
    (proc.returncode ≠ 0 →
      (run_process_and_update_systray m title command tgt proc cw elapsed nowStr).result =
        Except.error () ∧
      getStatus (run_process_and_update_systray m title command tgt proc cw elapsed
        nowStr).statuses title = TaskStatus.failed ∧
      ∃ p q, Effect.status (p ++ toString proc.returncode ++ q) ∈
          (run_process_and_update_systray m title command tgt proc cw elapsed nowStr).effects ∧
        ∃ r s, p ++ toString proc.returncode ++ q = r ++ time_string elapsed ++ s) ∧
    (proc.returncode = 0 →
      (run_process_and_update_systray m title command tgt proc cw elapsed nowStr).result =
        Except.ok proc.lines.length ∧
      getStatus (run_process_and_update_systray m title command tgt proc cw elapsed
        nowStr).statuses title = TaskStatus.finished ∧
      ∃ p q, Effect.status (p ++ time_string elapsed ++ q) ∈
          (run_process_and_update_systray m title command tgt proc cw elapsed nowStr).effects ∧
        (statsOutput proc.lines ≠ "" →
          ∃ r s, p ++ time_string elapsed ++ q = r ++ statsOutput proc.lines ++ s)) := by
  constructor
  · intro h
    refine ⟨supervisor_result_error m title command tgt proc cw elapsed nowStr h, ?_, ?_⟩
    · rw [supervisor_statuses, if_pos h]
      exact getStatus_setStatus_self m title TaskStatus.failed
    · refine ⟨"Failed " ++ title ++ " at " ++ nowStr ++ "!\n" ++ "Return code: ",
        " (in " ++ time_string elapsed ++ ")", ?_, ?_⟩
      · simp only [run_process_and_update_systray, if_pos h]
        apply List.mem_append_right
        simp only [List.mem_singleton, Effect.status.injEq]
        apply String.ext
        simp [String.data_append]
      · refine ⟨"Failed " ++ title ++ " at " ++ nowStr ++ "!\n" ++ "Return code: " ++
          toString proc.returncode ++ " (in ", ")", ?_⟩
        apply String.ext
        simp [String.data_append]
  · intro h
    have hne : ¬ proc.returncode ≠ 0 := by simp [h]
    refine ⟨supervisor_result_ok m title command tgt proc cw elapsed nowStr h, ?_, ?_⟩
    · rw [supervisor_statuses, if_neg hne]
      exact getStatus_setStatus_self m title TaskStatus.finished
    · refine ⟨"Finished " ++ title ++ " at " ++ nowStr ++ " in ",
        ":" ++ (if statsOutput proc.lines ≠ "" then "\n" ++ statsOutput proc.lines else ""),
        ?_, ?_⟩
      · simp only [run_process_and_update_systray, if_neg hne]
        apply List.mem_append_right
        simp only [List.mem_singleton, Effect.status.injEq]
        apply String.ext
        simp [String.data_append]
      · intro hs
        refine ⟨"Finished " ++ title ++ " at " ++ nowStr ++ " in " ++ time_string elapsed ++
          ":" ++ "\n", "", ?_⟩
        apply String.ext
        simp [hs, String.data_append]

/-- C3 witness: a run exiting with code 2 is classified as the handled
process error at a concrete input. -/
theorem C3_witness :
    (2 : Int) ≠ 0 ∧
    (run_process_and_update_systray [] "T" "cmd" 0
      { lines := ["a"], returncode := 2 } none 61 "1:00 PM").result = Except.error () :=
  ⟨by decide,
    ((C3_supervisor_classifies_outcome [] "T" "cmd" 0 { lines := ["a"], returncode := 2 }
      none 61 "1:00 PM").1 (by decide)).1⟩

theorem run_backup_skip (m : StatusMap) (config : BackupConfiguration) (proc : ProcBehavior)
    (cw : Option TaskStatus) (stored : Nat) (unexpected : Option BackupStep)
    (elapsed : Nat) (nowStr : String)
    (hrun : task_is_running m (config.name ++ " backup") = true) :
    run_backup m config proc cw stored unexpected elapsed nowStr =
      { statuses := m
        effects := [Effect.status ((config.name ++ " backup") ++ " is already running, skipping")] } := by
  simp [run_backup, hrun]

theorem run_backup_ok (m : StatusMap) (config : BackupConfiguration) (proc : ProcBehavior)
    (cw : Option TaskStatus) (stored : Nat) (elapsed : Nat) (nowStr : String)
    (hrun : task_is_running m (config.name ++ " backup") = false)
    (h0 : proc.returncode = 0) :
    run_backup m config proc cw stored none elapsed nowStr =
      { statuses := (run_process_and_update_systray m (config.name ++ " backup")
          (backup_command config) stored proc cw elapsed nowStr).statuses
        effects := Effect.rotate config.log_file ::
          (run_process_and_update_systray m (config.name ++ " backup")
            (backup_command config) stored proc cw elapsed nowStr).effects ++
          [Effect.save_line_count config.backup_line_count_file proc.lines.length] } := by
  simp only [run_backup]
  rw [hrun, supervisor_result_ok m (config.name ++ " backup") (backup_command config)
    stored proc cw elapsed nowStr h0]
  simp

theorem run_backup_procfail (m : StatusMap) (config : BackupConfiguration)
    (proc : ProcBehavior) (cw : Option TaskStatus) (stored : Nat)
    (unexpected : Option BackupStep) (elapsed : Nat) (nowStr : String)
    (hrun : task_is_running m (config.name ++ " backup") = false)
    (h0 : proc.returncode ≠ 0)
    (hu : unexpected = none ∨ unexpected = some BackupStep.saveStep) :
    run_backup m config proc cw stored unexpected elapsed nowStr =
      { statuses := (run_process_and_update_systray m (config.name ++ " backup")
          (backup_command config) stored proc cw elapsed nowStr).statuses
        effects := Effect.rotate config.log_file ::
          (run_process_and_update_systray m (config.name ++ " backup")
            (backup_command config) stored proc cw elapsed nowStr).effects } := by
  rcases hu with hu | hu <;>
  · subst hu
    simp only [run_backup]
    rw [hrun, supervisor_result_error m (config.name ++ " backup") (backup_command config)
      stored proc cw elapsed nowStr h0]
    simp

theorem run_backup_savefail (m : StatusMap) (config : BackupConfiguration)
    (proc : ProcBehavior) (cw : Option TaskStatus) (stored : Nat)
    (elapsed : Nat) (nowStr : String)
    (hrun : task_is_running m (config.name ++ " backup") = false)
    (h0 : proc.returncode = 0) :
    run_backup m config proc cw stored (some BackupStep.saveStep) elapsed nowStr =
      { statuses := setStatus (run_process_and_update_systray m (config.name ++ " backup")
          (backup_command config) stored proc cw elapsed nowStr).statuses
          (config.name ++ " backup") TaskStatus.failed
        effects := Effect.rotate config.log_file ::
          (run_process_and_update_systray m (config.name ++ " backup")
            (backup_command config) stored proc cw elapsed nowStr).effects ++
          [Effect.status ("Error running backup for " ++ config.name)] } := by
  simp only [run_backup]
  rw [hrun, supervisor_result_ok m (config.name ++ " backup") (backup_command config)
    stored proc cw elapsed nowStr h0]
  simp

theorem run_backup_early (m : StatusMap) (config : BackupConfiguration)
    (proc : ProcBehavior) (cw : Option TaskStatus) (stored : Nat)
    (step : BackupStep) (elapsed : Nat) (nowStr : String)
    (hrun : task_is_running m (config.name ++ " backup") = false)
    (hstep : step = BackupStep.rotateStep ∨ step = BackupStep.loadStep ∨
      step = BackupStep.superviseStep) :
    (run_backup m config proc cw stored (some step) elapsed nowStr).statuses =
      setStatus m (config.name ++ " backup") TaskStatus.failed ∧
    (∀ f n, Effect.save_line_count f n ∉
      (run_backup m config proc cw stored (some step) elapsed nowStr).effects) := by
  rcases hstep with hs | hs | hs <;>
  · subst hs
    simp only [run_backup]
    rw [hrun]
    simp

/-- C4: run_backup writes the persisted line-count file only on the path
where the primary task reached FINISHED (zero exit code, no unexpected
exception), and only with the observed line count; on a handled process
failure or an unexpected exception at any step, no write to the line-count
file occurs. -/
theorem C4_line_count_written_only_after_finish (m : StatusMap)
    (config : BackupConfiguration) (proc : ProcBehavior) (cw : Option TaskStatus)
    (stored : Nat) (unexpected : Option BackupStep) (elapsed : Nat) (nowStr : String) :
    (∀ f n, Effect.save_line_count f n ∈
        (run_backup m config proc cw stored unexpected elapsed nowStr).effects →
      getStatus (run_backup m config proc cw stored unexpected elapsed nowStr).statuses
          (config.name ++ " backup") = TaskStatus.finished ∧
      proc.returncode = 0 ∧ unexpected = none ∧
      f = config.backup_line_count_file ∧ n = proc.lines.length) ∧
    ((proc.returncode ≠ 0 ∨ unexpected ≠ none) →
      ∀ f n, Effect.save_line_count f n ∉
        (run_backup m config proc cw stored unexpected elapsed nowStr).effects) := by
  have main : ∀ f n, Effect.save_line_count f n ∈
      (run_backup m config proc cw stored unexpected elapsed nowStr).effects →
      getStatus (run_backup m config proc cw stored unexpected elapsed nowStr).statuses
          (config.name ++ " backup") = TaskStatus.finished ∧
      proc.returncode = 0 ∧ unexpected = none ∧
      f = config.backup_line_count_file ∧ n = proc.lines.length := by
    intro f n hmem
    by_cases hrun : task_is_running m (config.name ++ " backup") = true
    · rw [run_backup_skip m config proc cw stored unexpected elapsed nowStr hrun] at hmem
      exact Effect.noConfusion (List.mem_singleton.mp hmem)
    · simp only [Bool.not_eq_true] at hrun
      rcases hu : unexpected with _ | step
      · subst hu
        by_cases h0 : proc.returncode = 0
        · rw [run_backup_ok m config proc cw stored elapsed nowStr hrun h0] at hmem ⊢
          rcases List.mem_cons.mp hmem with h | h
          · exact Effect.noConfusion h
          · rcases List.mem_append.mp h with h2 | h2
            · exact absurd h2
                (save_not_in_supervisor_effects m _ _ stored proc cw elapsed nowStr f n)
            · have h3 := List.mem_singleton.mp h2
              injection h3 with hf hn
              refine ⟨?_, h0, rfl, hf, hn⟩
              dsimp only
              rw [supervisor_statuses, if_neg (by simp [h0])]
              exact getStatus_setStatus_self m (config.name ++ " backup") TaskStatus.finished
        · rw [run_backup_procfail m config proc cw stored none elapsed nowStr hrun h0
            (Or.inl rfl)] at hmem
          rcases List.mem_cons.mp hmem with h | h
          · exact Effect.noConfusion h
          · exact absurd h
              (save_not_in_supervisor_effects m _ _ stored proc cw elapsed nowStr f n)
      · subst hu
        cases step
        · exact absurd hmem ((run_backup_early m config proc cw stored _ elapsed nowStr hrun
            (Or.inl rfl)).2 f n)
        · exact absurd hmem ((run_backup_early m config proc cw stored _ elapsed nowStr hrun
            (Or.inr (Or.inl rfl))).2 f n)
        · exact absurd hmem ((run_backup_early m config proc cw stored _ elapsed nowStr hrun
            (Or.inr (Or.inr rfl))).2 f n)
        · by_cases h0 : proc.returncode = 0
          · rw [run_backup_savefail m config proc cw stored elapsed nowStr hrun h0] at hmem
            rcases List.mem_cons.mp hmem with h | h
            · exact Effect.noConfusion h
            · rcases List.mem_append.mp h with h2 | h2
              · exact absurd h2
                  (save_not_in_supervisor_effects m _ _ stored proc cw elapsed nowStr f n)
              · exact Effect.noConfusion (List.mem_singleton.mp h2)
          · rw [run_backup_procfail m config proc cw stored _ elapsed nowStr hrun h0
              (Or.inr rfl)] at hmem
            rcases List.mem_cons.mp hmem with h | h
            · exact Effect.noConfusion h
            · exact absurd h
                (save_not_in_supervisor_effects m _ _ stored proc cw elapsed nowStr f n)
  refine ⟨main, ?_⟩
  intro hbad f n hmem
  rcases main f n hmem with ⟨_, h0, hnone, _, _⟩
  rcases hbad with hb | hb
  · exact hb h0
  · exact hb hnone

/-- C4 witness: on a failing run (exit code 1) no line-count write occurs
at a concrete input. -/
theorem C4_witness :
    ((1 : Int) ≠ 0 ∨ (none : Option BackupStep) ≠ none) ∧
    Effect.save_line_count "lc" 1 ∉
      (run_backup [] cfgA { lines := ["x"], returncode := 1 } none 0 none 0
        "12:00 PM").effects :=
  ⟨Or.inl (by decide),
    (C4_line_count_written_only_after_finish [] cfgA { lines := ["x"], returncode := 1 }
      none 0 none 0 "12:00 PM").2 (Or.inl (by decide)) "lc" 1⟩

/-- C10: when a task's status slot holds CANCEL_REQUESTED while the
process exits, the supervisor still classifies the run purely by the exit
code: code 0 yields FINISHED, a published success message and the observed
line count, and run_backup then overwrites the line-count file; a FAILED
terminal state is guaranteed only for a non-zero exit code. -/
theorem C10_cancelled_run_with_zero_exit_finishes (m : StatusMap)
    (title command : String) (tgt : Nat) (proc : ProcBehavior) (elapsed : Nat)
    (nowStr : String) (config : BackupConfiguration) (stored : Nat) :
    (proc.returncode = 0 →
      (run_process_and_update_systray m title command tgt proc
        (some TaskStatus.cancelRequested) elapsed nowStr).result =
          Except.ok proc.lines.length ∧
      getStatus (run_process_and_update_systray m title command tgt proc
        (some TaskStatus.cancelRequested) elapsed nowStr).statuses title =
          TaskStatus.finished ∧
      ∃ q, Effect.status (("Finished " ++ title) ++ q) ∈
        (run_process_and_update_systray m title command tgt proc
          (some TaskStatus.cancelRequested) elapsed nowStr).effects) ∧
    (proc.returncode = 0 → task_is_running m (config.name ++ " backup") = false →
      Effect.save_line_count config.backup_line_count_file proc.lines.length ∈
        (run_backup m config proc (some TaskStatus.cancelRequested) stored none elapsed
          nowStr).effects) ∧
    (proc.returncode ≠ 0 →
      getStatus (run_process_and_update_systray m title command tgt proc
        (some TaskStatus.cancelRequested) elapsed nowStr).statuses title =
          TaskStatus.failed) := by
  refine ⟨?_, ?_, ?_⟩
  · intro h0
    have hne : ¬ proc.returncode ≠ 0 := by simp [h0]
    refine ⟨supervisor_result_ok m title command tgt proc _ elapsed nowStr h0, ?_, ?_⟩
    · rw [supervisor_statuses, if_neg hne]
      exact getStatus_setStatus_self m title TaskStatus.finished
    · refine ⟨" at " ++ nowStr ++ " in " ++ time_string elapsed ++ ":" ++
        (if statsOutput proc.lines ≠ "" then "\n" ++ statsOutput proc.lines else ""), ?_⟩
      simp only [run_process_and_update_systray, if_neg hne]
      apply List.mem_append_right
      simp only [List.mem_singleton, Effect.status.injEq]
      apply String.ext
      simp [String.data_append]
  · intro h0 hrun
    rw [run_backup_ok m config proc (some TaskStatus.cancelRequested) stored elapsed nowStr
      hrun h0]
    apply List.mem_cons_of_mem
    apply List.mem_append_right
    simp
  · intro h0
    rw [supervisor_statuses, if_pos h0]
    exact getStatus_setStatus_self m title TaskStatus.failed

/-- C10 witness: a cancelled backup whose process still exits 0 persists
the observed line count (three lines) at a concrete input. -/
theorem C10_witness :
    (0 : Int) = 0 ∧
    task_is_running [] (cfgA.name ++ " backup") = false ∧
    Effect.save_line_count "lc" 3 ∈
      (run_backup [] cfgA { lines := ["a", "b", "c"], returncode := 0 }
        (some TaskStatus.cancelRequested) 0 none 0 "12:00 PM").effects :=
  ⟨rfl, by decide,
    (C10_cancelled_run_with_zero_exit_finishes [] "T" "cmd" 0
      { lines := ["a", "b", "c"], returncode := 0 } 0 "12:00 PM" cfgA 0).2.1 rfl (by decide)⟩

/-- C9: every exception raised while handling an inbound item — including
the TypeError raised for an unrecognised item — is caught at the loop
level, which logs, publishes the error icon, and continues; the dispatch
loop terminates exactly when an Exit request is processed to completion. -/
theorem C9_dispatch_loop_catches_and_continues :
    (∀ (m : StatusMap) (item : QueueItem) (r : Bool),
      (dispatch_once m item r).2.2 = LoopControl.halt ↔
        (item = QueueItem.exitReq ∧ r = false)) ∧
    (∀ (m : StatusMap) (item : QueueItem),
      (dispatch_once m item true).2.2 = LoopControl.next ∧
      (dispatch_once m item true).1 = m ∧
      Effect.systray none (some "./icons/error.ico") ∈ (dispatch_once m item true).2.1) ∧
    (∀ m : StatusMap,
      dispatch_once m QueueItem.unknownItem false = (m, loopErrorEffects, LoopControl.next) ∧
      Effect.systray none (some "./icons/error.ico") ∈ loopErrorEffects) := by
  refine ⟨?_, ?_, ?_⟩
  · intro m item r
    cases r <;> cases item <;> simp [dispatch_once, loopErrorEffects]
  · intro m item
    cases item <;> simp [dispatch_once, loopErrorEffects]
  · intro m
    exact ⟨rfl, by decide⟩

/-- C8: automatic icon selection follows the FAILED, then first-RUNNING
(with the substring precedence post-backup, backup, analysis, diff), then
FINISHED, then idle precedence; the icon is included in the published
message only when it differs from the last icon sent, and the hover text
is always passed through verbatim. -/
theorem C8_icon_selection_and_dedup :
    (∀ m : StatusMap, m.any (fun q => decide (q.2 = TaskStatus.failed)) = true →
      autoIcon m = some "./icons/error.ico") ∧
    (∀ (m : StatusMap) (p : String × TaskStatus),
      m.any (fun q => decide (q.2 = TaskStatus.failed)) = false →
      m.find? (fun q => decide (q.2 = TaskStatus.running)) = some p →
      autoIcon m =
        (if strContains p.1 "post-backup" then some "./icons/post-backup.ico"
         else if strContains p.1 "backup" then some "./icons/backup.ico"
         else if strContains p.1 "analysis" then some "./icons/analyze.ico"
         else if strContains p.1 "diff" then some "./icons/logs.ico"
         else none)) ∧
    (∀ m : StatusMap, m.any (fun q => decide (q.2 = TaskStatus.failed)) = false →
      m.any (fun q => decide (q.2 = TaskStatus.running)) = false →
      m.any (fun q => decide (q.2 = TaskStatus.finished)) = true →
      autoIcon m = some "./icons/success.ico") ∧
    (∀ m : StatusMap, m.any (fun q => decide (q.2 = TaskStatus.failed)) = false →
      m.any (fun q => decide (q.2 = TaskStatus.running)) = false →
      m.any (fun q => decide (q.2 = TaskStatus.finished)) = false →
      autoIcon m = some "./icons/drive.ico") ∧
    (∀ (m : StatusMap) (last hover iconArg : Option String),
      (update_systray m last hover iconArg).sent_hover = hover) ∧
    (∀ (m : StatusMap) (last hover : Option String),
      (autoIcon m = last → (update_systray m last hover none).sent_icon = none ∧
        (update_systray m last hover none).last_sent_icon = last) ∧
      (autoIcon m ≠ last → (update_systray m last hover none).sent_icon = autoIcon m ∧
        (update_systray m last hover none).last_sent_icon = autoIcon m)) := by
  refine ⟨?_, ?_, ?_, ?_, ?_, ?_⟩
  · intro m h
    simp [autoIcon, h]
  · intro m p hf hr
    have hmem := List.mem_of_find?_eq_some hr
    have hpred := List.find?_some hr
    have hany : m.any (fun q => decide (q.2 = TaskStatus.running)) = true :=
      List.any_eq_true.mpr ⟨p, hmem, hpred⟩
    simp [autoIcon, hf, hany, hr]
  · intro m h1 h2 h3
    simp [autoIcon, h1, h2, h3]
  · intro m h1 h2 h3
    simp [autoIcon, h1, h2, h3]
  · intro m last hover iconArg
    simp only [update_systray]
    split <;> rfl
  · intro m last hover
    constructor
    · intro h
      simp [update_systray, h]
    · intro h
      simp [update_systray, h]

/-- C8 witness: FAILED beats RUNNING, and a first running post-backup task
selects the post-backup icon, at concrete tables. -/
theorem C8_witness :
    ([("A backup", TaskStatus.failed), ("B backup", TaskStatus.running)] : StatusMap).any
        (fun q => decide (q.2 = TaskStatus.failed)) = true ∧
    autoIcon [("A backup", TaskStatus.failed), ("B backup", TaskStatus.running)] =
      some "./icons/error.ico" ∧
    autoIcon [("A post-backup", TaskStatus.running)] = some "./icons/post-backup.ico" :=
  ⟨by decide,
    C8_icon_selection_and_dedup.1 _ (by decide),
    (C8_icon_selection_and_dedup.2.1 _ ("A post-backup", TaskStatus.running)
      (by decide) (by decide)).trans (by decide)⟩

theorem ne_gen_self (log_file : String) (i : Nat) : log_file ≠ gen log_file i := by
  intro h
  have hd := congrArg (fun s => s.data.length) h
  simp only [gen, String.data_append, List.length_append, List.length_cons,
    List.length_nil] at hd
  omega

theorem gen_ne_gen (log_file : String) {i j : Nat} (h : Nat.repr i ≠ Nat.repr j) :
    gen log_file i ≠ gen log_file j := by
  intro he
  apply h
  have hd := congrArg String.data he
  simp only [gen, String.data_append, List.append_assoc] at hd
  exact String.ext (List.append_cancel_left (List.append_cancel_left hd))

/-- fullLogDir is the file-system state in which the un-suffixed log file
and all nine rotated generations are present, holding contents c 0
(the current log) through c 9 (the oldest generation). -/
def fullLogDir (log_file : String) (c : Nat → String) : FS := fun p =>
  if p = log_file then some (c 0)
  else if p = gen log_file 1 then some (c 1)
  else if p = gen log_file 2 then some (c 2)
  else if p = gen log_file 3 then some (c 3)
  else if p = gen log_file 4 then some (c 4)
  else if p = gen log_file 5 then some (c 5)
  else if p = gen log_file 6 then some (c 6)
  else if p = gen log_file 7 then some (c 7)
  else if p = gen log_file 8 then some (c 8)
  else if p = gen log_file 9 then some (c 9)
  else none

set_option maxHeartbeats 2000000 in
/-- C5: with the log and generations 1 through 9 all present, rotation
leaves generation k+1 holding what generation k held (generation 1 holding
the old un-suffixed log), discards the old generation 9, and removes the
un-suffixed log; with no files present rotation is a no-op. -/
theorem C5_rotate_logs_shifts_generations (log_file : String) (c : Nat → String) :
    (rotate_logs (fullLogDir log_file c) log_file log_file = none) ∧
    (∀ k : Fin 9,
      rotate_logs (fullLogDir log_file c) log_file (gen log_file (k.val + 1)) =
        some (c k.val)) ∧
    (∀ p, rotate_logs (fun _ => none) log_file p = none) := by
  have hL1 : log_file ≠ gen log_file 1 := ne_gen_self log_file 1
  have h1L : gen log_file 1 ≠ log_file := (ne_gen_self log_file 1).symm
  have hL2 : log_file ≠ gen log_file 2 := ne_gen_self log_file 2
  have h2L : gen log_file 2 ≠ log_file := (ne_gen_self log_file 2).symm
  have hL3 : log_file ≠ gen log_file 3 := ne_gen_self log_file 3
  have h3L : gen log_file 3 ≠ log_file := (ne_gen_self log_file 3).symm
  have hL4 : log_file ≠ gen log_file 4 := ne_gen_self log_file 4
  have h4L : gen log_file 4 ≠ log_file := (ne_gen_self log_file 4).symm
  have hL5 : log_file ≠ gen log_file 5 := ne_gen_self log_file 5
  have h5L : gen log_file 5 ≠ log_file := (ne_gen_self log_file 5).symm
  have hL6 : log_file ≠ gen log_file 6 := ne_gen_self log_file 6
  have h6L : gen log_file 6 ≠ log_file := (ne_gen_self log_file 6).symm
  have hL7 : log_file ≠ gen log_file 7 := ne_gen_self log_file 7
  have h7L : gen log_file 7 ≠ log_file := (ne_gen_self log_file 7).symm
  have hL8 : log_file ≠ gen log_file 8 := ne_gen_self log_file 8
  have h8L : gen log_file 8 ≠ log_file := (ne_gen_self log_file 8).symm
  have hL9 : log_file ≠ gen log_file 9 := ne_gen_self log_file 9
  have h9L : gen log_file 9 ≠ log_file := (ne_gen_self log_file 9).symm
  have h12 : gen log_file 1 ≠ gen log_file 2 := gen_ne_gen log_file (by decide)
  have h13 : gen log_file 1 ≠ gen log_file 3 := gen_ne_gen log_file (by decide)
  have h14 : gen log_file 1 ≠ gen log_file 4 := gen_ne_gen log_file (by decide)
  have h15 : gen log_file 1 ≠ gen log_file 5 := gen_ne_gen log_file (by decide)
  have h16 : gen log_file 1 ≠ gen log_file 6 := gen_ne_gen log_file (by decide)
  have h17 : gen log_file 1 ≠ gen log_file 7 := gen_ne_gen log_file (by decide)
  have h18 : gen log_file 1 ≠ gen log_file 8 := gen_ne_gen log_file (by decide)
  have h19 : gen log_file 1 ≠ gen log_file 9 := gen_ne_gen log_file (by decide)
  have h21 : gen log_file 2 ≠ gen log_file 1 := gen_ne_gen log_file (by decide)
  have h23 : gen log_file 2 ≠ gen log_file 3 := gen_ne_gen log_file (by decide)
  have h24 : gen log_file 2 ≠ gen log_file 4 := gen_ne_gen log_file (by decide)
  have h25 : gen log_file 2 ≠ gen log_file 5 := gen_ne_gen log_file (by decide)
  have h26 : gen log_file 2 ≠ gen log_file 6 := gen_ne_gen log_file (by decide)
  have h27 : gen log_file 2 ≠ gen log_file 7 := gen_ne_gen log_file (by decide)
  have h28 : gen log_file 2 ≠ gen log_file 8 := gen_ne_gen log_file (by decide)
  have h29 : gen log_file 2 ≠ gen log_file 9 := gen_ne_gen log_file (by decide)
  have h31 : gen log_file 3 ≠ gen log_file 1 := gen_ne_gen log_file (by decide)
  have h32 : gen log_file 3 ≠ gen log_file 2 := gen_ne_gen log_file (by decide)
  have h34 : gen log_file 3 ≠ gen log_file 4 := gen_ne_gen log_file (by decide)
  have h35 : gen log_file 3 ≠ gen log_file 5 := gen_ne_gen log_file (by decide)
  have h36 : gen log_file 3 ≠ gen log_file 6 := gen_ne_gen log_file (by decide)
  have h37 : gen log_file 3 ≠ gen log_file 7 := gen_ne_gen log_file (by decide)
  have h38 : gen log_file 3 ≠ gen log_file 8 := gen_ne_gen log_file (by decide)
  have h39 : gen log_file 3 ≠ gen log_file 9 := gen_ne_gen log_file (by decide)
  have h41 : gen log_file 4 ≠ gen log_file 1 := gen_ne_gen log_file (by decide)
  have h42 : gen log_file 4 ≠ gen log_file 2 := gen_ne_gen log_file (by decide)
  have h43 : gen log_file 4 ≠ gen log_file 3 := gen_ne_gen log_file (by decide)
  have h45 : gen log_file 4 ≠ gen log_file 5 := gen_ne_gen log_file (by decide)
  have h46 : gen log_file 4 ≠ gen log_file 6 := gen_ne_gen log_file (by decide)
  have h47 : gen log_file 4 ≠ gen log_file 7 := gen_ne_gen log_file (by decide)
  have h48 : gen log_file 4 ≠ gen log_file 8 := gen_ne_gen log_file (by decide)
  have h49 : gen log_file 4 ≠ gen log_file 9 := gen_ne_gen log_file (by decide)
  have h51 : gen log_file 5 ≠ gen log_file 1 := gen_ne_gen log_file (by decide)
  have h52 : gen log_file 5 ≠ gen log_file 2 := gen_ne_gen log_file (by decide)
  have h53 : gen log_file 5 ≠ gen log_file 3 := gen_ne_gen log_file (by decide)
  have h54 : gen log_file 5 ≠ gen log_file 4 := gen_ne_gen log_file (by decide)
  have h56 : gen log_file 5 ≠ gen log_file 6 := gen_ne_gen log_file (by decide)
  have h57 : gen log_file 5 ≠ gen log_file 7 := gen_ne_gen log_file (by decide)
  have h58 : gen log_file 5 ≠ gen log_file 8 := gen_ne_gen log_file (by decide)
  have h59 : gen log_file 5 ≠ gen log_file 9 := gen_ne_gen log_file (by decide)
  have h61 : gen log_file 6 ≠ gen log_file 1 := gen_ne_gen log_file (by decide)
  have h62 : gen log_file 6 ≠ gen log_file 2 := gen_ne_gen log_file (by decide)
  have h63 : gen log_file 6 ≠ gen log_file 3 := gen_ne_gen log_file (by decide)
  have h64 : gen log_file 6 ≠ gen log_file 4 := gen_ne_gen log_file (by decide)
  have h65 : gen log_file 6 ≠ gen log_file 5 := gen_ne_gen log_file (by decide)
  have h67 : gen log_file 6 ≠ gen log_file 7 := gen_ne_gen log_file (by decide)
  have h68 : gen log_file 6 ≠ gen log_file 8 := gen_ne_gen log_file (by decide)
  have h69 : gen log_file 6 ≠ gen log_file 9 := gen_ne_gen log_file (by decide)
  have h71 : gen log_file 7 ≠ gen log_file 1 := gen_ne_gen log_file (by decide)
  have h72 : gen log_file 7 ≠ gen log_file 2 := gen_ne_gen log_file (by decide)
  have h73 : gen log_file 7 ≠ gen log_file 3 := gen_ne_gen log_file (by decide)
  have h74 : gen log_file 7 ≠ gen log_file 4 := gen_ne_gen log_file (by decide)
  have h75 : gen log_file 7 ≠ gen log_file 5 := gen_ne_gen log_file (by decide)
  have h76 : gen log_file 7 ≠ gen log_file 6 := gen_ne_gen log_file (by decide)
  have h78 : gen log_file 7 ≠ gen log_file 8 := gen_ne_gen log_file (by decide)
  have h79 : gen log_file 7 ≠ gen log_file 9 := gen_ne_gen log_file (by decide)
  have h81 : gen log_file 8 ≠ gen log_file 1 := gen_ne_gen log_file (by decide)
  have h82 : gen log_file 8 ≠ gen log_file 2 := gen_ne_gen log_file (by decide)
  have h83 : gen log_file 8 ≠ gen log_file 3 := gen_ne_gen log_file (by decide)
  have h84 : gen log_file 8 ≠ gen log_file 4 := gen_ne_gen log_file (by decide)
  have h85 : gen log_file 8 ≠ gen log_file 5 := gen_ne_gen log_file (by decide)
  have h86 : gen log_file 8 ≠ gen log_file 6 := gen_ne_gen log_file (by decide)
  have h87 : gen log_file 8 ≠ gen log_file 7 := gen_ne_gen log_file (by decide)
  have h89 : gen log_file 8 ≠ gen log_file 9 := gen_ne_gen log_file (by decide)
  have h91 : gen log_file 9 ≠ gen log_file 1 := gen_ne_gen log_file (by decide)
  have h92 : gen log_file 9 ≠ gen log_file 2 := gen_ne_gen log_file (by decide)
  have h93 : gen log_file 9 ≠ gen log_file 3 := gen_ne_gen log_file (by decide)
  have h94 : gen log_file 9 ≠ gen log_file 4 := gen_ne_gen log_file (by decide)
  have h95 : gen log_file 9 ≠ gen log_file 5 := gen_ne_gen log_file (by decide)
  have h96 : gen log_file 9 ≠ gen log_file 6 := gen_ne_gen log_file (by decide)
  have h97 : gen log_file 9 ≠ gen log_file 7 := gen_ne_gen log_file (by decide)
  have h98 : gen log_file 9 ≠ gen log_file 8 := gen_ne_gen log_file (by decide)
  refine ⟨?_, ?_, ?_⟩
  · simp [rotate_logs, fullLogDir, fsExists, fsUnlink, fsMove, hL1, hL2, hL3, hL4, hL5,
      hL6, hL7, hL8, hL9, h1L, h2L, h3L, h4L, h5L, h6L, h7L, h8L, h9L, h12, h13, h14,
      h15, h16, h17, h18, h19, h21, h23, h24, h25, h26, h27, h28, h29, h31, h32, h34,
      h35, h36, h37, h38, h39, h41, h42, h43, h45, h46, h47, h48, h49, h51, h52, h53,
      h54, h56, h57, h58, h59, h61, h62, h63, h64, h65, h67, h68, h69, h71, h72, h73,
      h74, h75, h76, h78, h79, h81, h82, h83, h84, h85, h86, h87, h89, h91, h92, h93,
      h94, h95, h96, h97, h98]
  · intro k
    fin_cases k <;>
      simp [rotate_logs, fullLogDir, fsExists, fsUnlink, fsMove, hL1, hL2, hL3, hL4, hL5,
        hL6, hL7, hL8, hL9, h1L, h2L, h3L, h4L, h5L, h6L, h7L, h8L, h9L, h12, h13, h14,
        h15, h16, h17, h18, h19, h21, h23, h24, h25, h26, h27, h28, h29, h31, h32, h34,
        h35, h36, h37, h38, h39, h41, h42, h43, h45, h46, h47, h48, h49, h51, h52, h53,
        h54, h56, h57, h58, h59, h61, h62, h63, h64, h65, h67, h68, h69, h71, h72, h73,
        h74, h75, h76, h78, h79, h81, h82, h83, h84, h85, h86, h87, h89, h91, h92, h93,
        h94, h95, h96, h97, h98]
  · intro p
    rfl

theorem sorted_desc_div (l : List (String × Rat)) (d : Nat) :
    (((l.insertionSort ratDesc)).map (fun p => (p.1, p.2 / (d : Rat)))).Pairwise
      (fun a b => b.2 ≤ a.2) := by
  have hp : List.Sorted ratDesc (l.insertionSort ratDesc) :=
    List.sorted_insertionSort ratDesc l
  rw [List.pairwise_map]
  exact hp.imp (fun h => div_le_div_of_nonneg_right h (Nat.cast_nonneg d))

/-- logLineU is a synthetic processed-item log line: five fields, a
single-character item flag, at the given timestamp and file path. -/
def logLineU (t : Rat) (path : String) (raw : String) : LogLine :=
  { ts := t, parts := ["[d", "t]", "INFO", "U", path], raw := raw }

/-- C6: the Log Analyzer accumulates a per-file and per-path-prefix delta
only when the single-character item-flag line's delta from the previous
timestamp is strictly below 600 seconds (a 600 second delta is excluded, a
599 second delta is included); every accumulated total is divided by the
number of generations scanned (minimum 1 when none were scanned), and both
result tables are sorted descending by average time. -/
theorem C6_analyzer_threshold_average_sort :
    (∀ gens, ((analyze_logs gens).sorted_files).Pairwise (fun a b => b.2 ≤ a.2)) ∧
    (∀ gens, ((analyze_logs gens).sorted_paths).Pairwise (fun a b => b.2 ≤ a.2)) ∧
    (∀ gens, (analyze_logs gens).backup_count =
      if gens.length = 0 then 1 else gens.length) ∧
    (analyze_logs [[logLineU 0 "f1" "r1", logLineU 600 "f1" "r2"]]).sorted_files =
      [("f1", 0)] ∧
    (analyze_logs [[logLineU 0 "f1" "r1", logLineU 599 "f1" "r2"]]).sorted_files =
      [("f1", 599)] ∧
    (analyze_logs [[logLineU 0 "f1" "r1", logLineU 10 "f1" "r2"], []]).sorted_files =
      [("f1", 5)] ∧
    (analyze_logs [[logLineU 0 "a/b" "r1", logLineU 10 "a/b" "r2"]]).sorted_paths =
      [("a", 10), ("a/b", 10)] ∧
    (analyze_logs [[logLineU 0 "x" "r", logLineU 5 "y" "r2", logLineU 25 "x" "r3"]]).sorted_files =
      [("x", 20), ("y", 5)] ∧
    (analyze_logs []).backup_count = 1 := by
  refine ⟨?_, ?_, ?_, ?_, ?_, ?_, ?_, ?_, ?_⟩
  · intro gens
    simp only [analyze_logs]
    exact sorted_desc_div _ _
  · intro gens
    simp only [analyze_logs]
    exact sorted_desc_div _ _
  · intro gens
    simp [analyze_logs]
  · have hj1 : pyJoin " " ["f1"] = "f1" := by decide
    have hs1 : pySplit '/' "f1" = ["f1"] := by decide
    have hj2 : pyJoin "/" ["f1"] = "f1" := by decide
    norm_num [analyze_logs, analyzer_totals, analyze_generation, analyze_line, addTime,
      addPathTimes, logLineU, strContains, List.enum, List.enumFrom, List.range',
      List.lookup, List.insertionSort, List.orderedInsert, ratDesc, hj1, hs1, hj2]
  · have hj1 : pyJoin " " ["f1"] = "f1" := by decide
    have hs1 : pySplit '/' "f1" = ["f1"] := by decide
    have hj2 : pyJoin "/" ["f1"] = "f1" := by decide
    norm_num [analyze_logs, analyzer_totals, analyze_generation, analyze_line, addTime,
      addPathTimes, logLineU, strContains, List.enum, List.enumFrom, List.range',
      List.lookup, List.insertionSort, List.orderedInsert, ratDesc, hj1, hs1, hj2]
  · have hj1 : pyJoin " " ["f1"] = "f1" := by decide
    have hs1 : pySplit '/' "f1" = ["f1"] := by decide
    have hj2 : pyJoin "/" ["f1"] = "f1" := by decide
    norm_num [analyze_logs, analyzer_totals, analyze_generation, analyze_line, addTime,
      addPathTimes, logLineU, strContains, List.enum, List.enumFrom, List.range',
      List.lookup, List.insertionSort, List.orderedInsert, ratDesc, hj1, hs1, hj2]
  · have hj1 : pyJoin " " ["a/b"] = "a/b" := by decide
    have hs1 : pySplit '/' "a/b" = ["a", "b"] := by decide
    have hj2 : pyJoin "/" ["a"] = "a" := by decide
    have hj3 : pyJoin "/" ["a", "b"] = "a/b" := by decide
    have hne1 : ("a/b" : String) ≠ "a" := by decide
    have hne2 : ("a" : String) ≠ "a/b" := by decide
    norm_num [analyze_logs, analyzer_totals, analyze_generation, analyze_line, addTime,
      addPathTimes, logLineU, strContains, List.enum, List.enumFrom, List.range',
      List.lookup, List.insertionSort, List.orderedInsert, ratDesc, hj1, hs1, hj2, hj3,
      hne1, hne2]
  · have hj1 : pyJoin " " ["x"] = "x" := by decide
    have hj2 : pyJoin " " ["y"] = "y" := by decide
    have hs1 : pySplit '/' "x" = ["x"] := by decide
    have hs2 : pySplit '/' "y" = ["y"] := by decide
    have hj3 : pyJoin "/" ["x"] = "x" := by decide
    have hj4 : pyJoin "/" ["y"] = "y" := by decide
    have hne1 : ("x" : String) ≠ "y" := by decide
    have hne2 : ("y" : String) ≠ "x" := by decide
    norm_num [analyze_logs, analyzer_totals, analyze_generation, analyze_line, addTime,
      addPathTimes, logLineU, strContains, List.enum, List.enumFrom, List.range',
      List.lookup, List.insertionSort, List.orderedInsert, ratDesc, hj1, hj2, hs1, hs2,
      hj3, hj4, hne1, hne2]
  · norm_num [analyze_logs, analyzer_totals]

end BorgmaticTray
